import Mathlib

/-!
# Verification of the teepod VM control plane (dstack)

Shallow embedding of the teepod control-plane service:
`src/teepod/src/main_service.rs` (create_vm / resize_vm / upgrade_app,
app-id derivation, label validation) and `src/teepod/src/config.rs`
(port-mapping policy).  Filesystem operations, the VM runtime backend,
UUID generation and the system clock are external effects; they are
modelled by an explicit environment record that fixes which of the calls
succeed, so that every control path of the Rust source is a value of a
pure Lean function.  Machine integers are modelled as `Nat` (ports are
`u16`-checked exactly where the source performs `try_into`); SHA-256 is
embedded in full (FIPS 180-4), matching the `sha2` crate the source calls.
-/

namespace Dstack

/-! ## SHA-256 (the `sha2` crate's `Sha256`, as called by `hex_sha256`) -/

namespace Sha256

/-- Right rotation of a 32-bit word (input and output `< 2^32`). -/
def rotr (n x : Nat) : Nat := ((x >>> n) ||| (x <<< (32 - n))) % 2 ^ 32

/-- Bitwise complement of a 32-bit word. -/
def wnot (x : Nat) : Nat := 0xffffffff ^^^ x

def bigSigma0 (x : Nat) : Nat := rotr 2 x ^^^ rotr 13 x ^^^ rotr 22 x

def bigSigma1 (x : Nat) : Nat := rotr 6 x ^^^ rotr 11 x ^^^ rotr 25 x

def smallSigma0 (x : Nat) : Nat := rotr 7 x ^^^ rotr 18 x ^^^ (x >>> 3)

def smallSigma1 (x : Nat) : Nat := rotr 17 x ^^^ rotr 19 x ^^^ (x >>> 10)

def ch (x y z : Nat) : Nat := (x &&& y) ^^^ (wnot x &&& z)

def maj (x y z : Nat) : Nat := (x &&& y) ^^^ (x &&& z) ^^^ (y &&& z)

/-- The 64 round constants of SHA-256 (FIPS 180-4 section 4.2.2, the first 32
bits of the fractional parts of the cube roots of the first 64 primes; written
in decimal here). -/
def K : List Nat :=
  [1116352408, 1899447441, 3049323471, 3921009573, 961987163,
   1508970993, 2453635748, 2870763221, 3624381080, 310598401,
   607225278, 1426881987, 1925078388, 2162078206, 2614888103,
   3248222580, 3835390401, 4022224774, 264347078, 604807628,
   770255983, 1249150122, 1555081692, 1996064986, 2554220882,
   2821834349, 2952996808, 3210313671, 3336571891, 3584528711,
   113926993, 338241895, 666307205, 773529912, 1294757372,
   1396182291, 1695183700, 1986661051, 2177026350, 2456956037,
   2730485921, 2820302411, 3259730800, 3345764771, 3516065817,
   3600352804, 4094571909, 275423344, 430227734, 506948616,
   659060556, 883997877, 958139571, 1322822218, 1537002063,
   1747873779, 1955562222, 2024104815, 2227730452, 2361852424,
   2428436474, 2756734187, 3204031479, 3329325298]

/-- Big-endian byte serialization of `n` into `k` bytes. -/
def bytesBE : Nat → Nat → List Nat
  | 0, _ => []
  | k + 1, n => bytesBE k (n / 256) ++ [n % 256]

/-- Group a byte list into big-endian 32-bit words (complete groups of 4). -/
def wordsBE : List Nat → List Nat
  | a :: b :: c :: d :: rest => (((a * 256 + b) * 256 + c) * 256 + d) :: wordsBE rest
  | _ => []

/-- Merkle–Damgård padding: `0x80`, zeros, then the 64-bit big-endian bit length. -/
def pad (msg : List Nat) : List Nat :=
  let zeros := (64 - (msg.length + 9) % 64) % 64
  msg ++ [0x80] ++ List.replicate zeros 0 ++ bytesBE 8 (msg.length * 8)

/-- Split into 64-byte chunks (fuel-based so the kernel can evaluate it;
`fuel = l.length` bounds the number of chunks since each step consumes 64 bytes). -/
def chunksAux : Nat → List Nat → List (List Nat)
  | 0, _ => []
  | fuel + 1, l => if l.isEmpty then [] else l.take 64 :: chunksAux fuel (l.drop 64)

/-- Split into 64-byte chunks. -/
def chunks (l : List Nat) : List (List Nat) := chunksAux l.length l

/-- Extend the (reversed) message schedule by `k` more words:
`w[i] = σ1 w[i-2] + w[i-7] + σ0 w[i-15] + w[i-16] (mod 2^32)`. -/
def extendMsg : Nat → List Nat → List Nat
  | 0, acc => acc
  | k + 1, acc =>
    let nw := (smallSigma1 (acc.getD 1 0) + acc.getD 6 0
               + smallSigma0 (acc.getD 14 0) + acc.getD 15 0) % 2 ^ 32
    extendMsg k (nw :: acc)

/-- The 64-word message schedule of one 64-byte chunk. -/
def schedule (chunk : List Nat) : List Nat :=
  (extendMsg 48 (wordsBE chunk).reverse).reverse

/-- Working state of the compression function: the eight 32-bit registers. -/
structure Regs where
  a : Nat
  b : Nat
  c : Nat
  d : Nat
  e : Nat
  f : Nat
  g : Nat
  h : Nat
deriving DecidableEq, Repr

/-- One round of the SHA-256 compression function. -/
def round (s : Regs) (kw : Nat × Nat) : Regs :=
  let t1 := (s.h + bigSigma1 s.e + ch s.e s.f s.g + kw.1 + kw.2) % 2 ^ 32
  let t2 := (bigSigma0 s.a + maj s.a s.b s.c) % 2 ^ 32
  { a := (t1 + t2) % 2 ^ 32, b := s.a, c := s.b, d := s.c,
    e := (s.d + t1) % 2 ^ 32, f := s.e, g := s.f, h := s.g }

/-- Process one 64-byte chunk: 64 rounds, then add back into the state. -/
def compressChunk (s : Regs) (chunk : List Nat) : Regs :=
  let t := (K.zip (schedule chunk)).foldl round s
  { a := (s.a + t.a) % 2 ^ 32, b := (s.b + t.b) % 2 ^ 32,
    c := (s.c + t.c) % 2 ^ 32, d := (s.d + t.d) % 2 ^ 32,
    e := (s.e + t.e) % 2 ^ 32, f := (s.f + t.f) % 2 ^ 32,
    g := (s.g + t.g) % 2 ^ 32, h := (s.h + t.h) % 2 ^ 32 }

/-- The initial hash value of SHA-256. -/
def H0 : Regs :=
  { a := 0x6a09e667, b := 0xbb67ae85, c := 0x3c6ef372, d := 0xa54ff53a,
    e := 0x510e527f, f := 0x9b05688c, g := 0x1f83d9ab, h := 0x5be0cd19 }

/-- SHA-256 digest of a byte string, as its 32 digest bytes. -/
def sha256 (msg : List Nat) : List Nat :=
  let s := (chunks (pad msg)).foldl compressChunk H0
  bytesBE 4 s.a ++ bytesBE 4 s.b ++ bytesBE 4 s.c ++ bytesBE 4 s.d ++
  bytesBE 4 s.e ++ bytesBE 4 s.f ++ bytesBE 4 s.g ++ bytesBE 4 s.h

end Sha256

/-! ## Hex encoding (the `hex` crate's `encode`) and UTF-8 bytes of a `&str` -/

/-- The hex digit for `n < 16` (lower-case, as `hex::encode` emits). -/
def hexDigit (n : Nat) : Char := "0123456789abcdef".data.getD n '0'

/-- Two hex characters of one byte. -/
def hexByte (b : Nat) : List Char := [hexDigit (b / 16 % 16), hexDigit (b % 16)]

/-- Lower-case hex rendering of a byte string. -/
def hexOfBytes (bs : List Nat) : List Char := bs.flatMap hexByte

/-- UTF-8 encoding of one scalar value (Rust `&str` content is UTF-8). -/
def utf8Bytes (c : Char) : List Nat :=
  let n := c.toNat
  if n < 0x80 then [n]
  else if n < 0x800 then [0xc0 ||| (n >>> 6), 0x80 ||| (n &&& 0x3f)]
  else if n < 0x10000 then
    [0xe0 ||| (n >>> 12), 0x80 ||| ((n >>> 6) &&& 0x3f), 0x80 ||| (n &&& 0x3f)]
  else
    [0xf0 ||| (n >>> 18), 0x80 ||| ((n >>> 12) &&& 0x3f),
     0x80 ||| ((n >>> 6) &&& 0x3f), 0x80 ||| (n &&& 0x3f)]

/-- The UTF-8 bytes of a string — what `sha2::Digest::update` hashes for a `&str`. -/
def strBytes (s : String) : List Nat := s.data.flatMap utf8Bytes

/-- `hex_sha256` of `main_service.rs`: hex of the SHA-256 of the string's bytes. -/
def hex_sha256 (data : String) : String := ⟨hexOfBytes (Sha256.sha256 (strBytes data))⟩

/-- `truncate40` (local to `app_id_of`): keep at most the first 40 bytes.
Hex output is ASCII, so Rust's byte slice `&s[..40]` is the char-level `take`. -/
def truncate40 (s : List Char) : List Char := if s.length > 40 then s.take 40 else s

/-- `app_id_of` of `main_service.rs`: truncated hex SHA-256 of the compose file. -/
def app_id_of (compose_file : String) : String := ⟨truncate40 (hex_sha256 compose_file).data⟩

/-- Decidable equality for `Except` results (rpc outcomes are compared in
witnesses). -/
instance {ε α : Type} [DecidableEq ε] [DecidableEq α] : DecidableEq (Except ε α)
  | .error a, .error b =>
    if h : a = b then .isTrue (by rw [h]) else .isFalse (by simp [h])
  | .error _, .ok _ => .isFalse (by simp)
  | .ok _, .error _ => .isFalse (by simp)
  | .ok a, .ok b =>
    if h : a = b then .isTrue (by rw [h]) else .isFalse (by simp [h])

/-! ## Configuration (`src/teepod/src/config.rs`) -/

/-- `Protocol` of `config.rs` (serde lowercase). -/
inductive Protocol
  | tcp
  | udp
deriving DecidableEq, Repr

/-- `Protocol::as_str`. -/
def Protocol.as_str : Protocol → String
  | .tcp => "tcp"
  | .udp => "udp"

/-- `Protocol::from_str` (`"tcp"`, `"udp"`, anything else is an error). -/
def parseProtocol (s : String) : Option Protocol :=
  if s = "tcp" then some .tcp else if s = "udp" then some .udp else none

/-- `PortRange` of `config.rs`.  `from` and `to` are Lean keywords, hence the trailing underscores. -/
structure PortRange where
  protocol : Protocol
  from_ : Nat
  to_ : Nat
deriving DecidableEq, Repr

/-- `PortRange::contains`. -/
def PortRange.contains (r : PortRange) (protocol : String) (port : Nat) : Bool :=
  (r.protocol.as_str == protocol) && decide (r.from_ ≤ port) && decide (port ≤ r.to_)

/-- `PortMappingConfig` of `config.rs`; the bind address (`IpAddr`) is opaque here. -/
structure PortMappingConfig where
  enabled : Bool
  address : String
  range : List PortRange
deriving DecidableEq, Repr

/-- `PortMappingConfig::is_allowed`. -/
def PortMappingConfig.is_allowed (c : PortMappingConfig) (protocol : String) (port : Nat) : Bool :=
  if !c.enabled then false else c.range.any fun r => r.contains protocol port

/-- The part of `CvmConfig` that `create_vm` branches on.  The remaining fields
(cert paths, URLs, resource ceilings) only feed the injected filesystem and
backend effects and carry no control flow of their own. -/
structure CvmConfig where
  port_mapping : PortMappingConfig
deriving DecidableEq, Repr

/-- The part of teepod's `Config` used by the operations under proof. -/
structure Config where
  cvm : CvmConfig
deriving DecidableEq, Repr

/-! ## Data model of `main_service.rs` -/

/-- One entry of `VmConfiguration.ports` (the `teepod_rpc` port mapping message);
`host_port`/`vm_port` arrive as wide integers and are `u16`-checked by `try_into`. -/
structure RpcPortMapping where
  protocol : String
  host_port : Nat
  vm_port : Nat
deriving DecidableEq, Repr

/-- A validated port mapping as stored in the manifest (`crate::app::PortMapping`). -/
structure PortMapping where
  address : String
  protocol : Protocol
  from_ : Nat
  to_ : Nat
deriving DecidableEq, Repr

/-- The `teepod_rpc` `VmConfiguration` request message, as read by `create_vm`. -/
structure VmConfiguration where
  name : String
  image : String
  compose_file : String
  vcpu : Nat
  memory : Nat
  disk_size : Nat
  ports : List RpcPortMapping
  encrypted_env : List Nat
  app_id : Option String
deriving DecidableEq, Repr

/-- Modelled from the spec: the `Manifest` of `crate::app` (that file is outside
the sampled sources).  Spec section 3 and the builder call in `create_vm` agree on
exactly these fields: instance id, display name, application id, image reference,
vcpu, memory, disk size, port map, creation timestamp in milliseconds. -/
structure Manifest where
  id : String
  name : String
  app_id : String
  image : String
  vcpu : Nat
  memory : Nat
  disk_size : Nat
  port_map : List PortMapping
  created_at_ms : Nat
deriving DecidableEq, Repr

/-- `ImageInfo` of `crate::app` as used by `prepare_work_dir`: only its
`rootfs_hash : Option<String>` is inspected. -/
structure ImageInfo where
  rootfs_hash : Option String
deriving DecidableEq, Repr

/-- The errors `create_vm` can surface, one constructor per `bail!`/`context`
site of `main_service.rs` (message payloads kept where the message interpolates
request data). -/
inductive CreateErr
  | invalidName (name : String)
  | portMappingDisabled
  | invalidHostPort
  | invalidVmPort
  | portNotAllowed (protocol : String) (port : Nat)
  | invalidProtocol (protocol : String)
  | alreadyExists
  | createSharedDirFailed
  | writeComposeFailed
  | writeEncryptedEnvFailed
  | createCertsDirFailed
  | copyCaCertFailed
  | copyTmpCaCertFailed
  | copyTmpCaKeyFailed
  | loadImageInfoFailed
  | rootfsHashNotFound
  | writeVmConfigFailed
  | writeInstanceInfoFailed
  | putManifestFailed
  | loadVmFailed
deriving DecidableEq, Repr

/-- Outcome environment for one `create_vm` call: which of the external effects
(filesystem, image metadata, backend launch) succeed.  `true` means the call
succeeds; `prepare_work_dir`/`create_vm` never retry, so one Boolean per site
captures every control path of the source. -/
structure CreateEnv where
  preExists : Bool
  createSharedDir : Bool
  writeCompose : Bool
  writeEncryptedEnv : Bool
  createCertsDir : Bool
  copyCaCert : Bool
  copyTmpCaCert : Bool
  copyTmpCaKey : Bool
  imageInfo : Option ImageInfo
  writeVmConfig : Bool
  writeInstanceInfo : Bool
  putManifest : Bool
  setStarted : Bool
  loadVm : Bool
  removeDirAll : Bool
  now : Nat
deriving DecidableEq, Repr

/-- Observable on-disk state of the new instance's work directory. -/
structure WorkDirFs where
  dirExists : Bool
  manifest : Option Manifest
  started : Option Bool
deriving DecidableEq, Repr

/-- The work-directory state before `create_vm` touches the filesystem. -/
def initWorkDir (env : CreateEnv) : WorkDirFs :=
  { dirExists := env.preExists, manifest := none, started := none }

/-! ## `validate_label`, port mapping, `prepare_work_dir`, `create_vm` -/

/-- `validate_label` of `main_service.rs`: error iff some character is not
alphanumeric, dash or underscore.  (`Char.isAlphanum` stands in for Rust's
`char::is_alphanumeric`; the claims under proof do not distinguish the two.) -/
def validate_label (label : String) : Except String Unit :=
  if label.data.any (fun c => !c.isAlphanum && c != '-' && c != '_') then
    .error ("Invalid name: " ++ label)
  else
    .ok ()

/-- Rust `u16::try_from` on a non-negative integer. -/
def tryIntoU16 (n : Nat) : Option Nat := if n < 65536 then some n else none

/-- The body of the per-port closure in `create_vm` (lines 141-154): `try_into`
both ports, gate on `is_allowed`, parse the protocol, build the `PortMapping`. -/
def mapPort (pm_cfg : PortMappingConfig) (p : RpcPortMapping) : Except CreateErr PortMapping :=
  match tryIntoU16 p.host_port with
  | none => .error .invalidHostPort
  | some from_ =>
    match tryIntoU16 p.vm_port with
    | none => .error .invalidVmPort
    | some to_ =>
      if !pm_cfg.is_allowed p.protocol from_ then
        .error (.portNotAllowed p.protocol from_)
      else
        match parseProtocol p.protocol with
        | none => .error (.invalidProtocol p.protocol)
        | some protocol =>
          .ok { address := pm_cfg.address, protocol := protocol, from_ := from_, to_ := to_ }

/-- The iterator chain `request.ports.iter().map(...).collect::<Result<Vec<_>>>()`:
fail-fast left-to-right collection of the per-port results. -/
def collectPorts (pm_cfg : PortMappingConfig) : List RpcPortMapping → Except CreateErr (List PortMapping)
  | [] => .ok []
  | p :: rest =>
    match mapPort pm_cfg p with
    | .error e => .error e
    | .ok m =>
      match collectPorts pm_cfg rest with
      | .error e => .error e
      | .ok ms => .ok (m :: ms)

/-- The fallible steps of `RpcHandler::prepare_work_dir` after the shared
directory exists, in source order: compose write, optional encrypted-env write,
certs directory, the three cert copies, image-metadata load, rootfs-hash lookup,
config write, optional `.instance_info` write. -/
def prepare_files (env : CreateEnv) (req : VmConfiguration) : Except CreateErr Unit :=
  if !env.writeCompose then .error .writeComposeFailed
  else if !req.encrypted_env.isEmpty && !env.writeEncryptedEnv then .error .writeEncryptedEnvFailed
  else if !env.createCertsDir then .error .createCertsDirFailed
  else if !env.copyCaCert then .error .copyCaCertFailed
  else if !env.copyTmpCaCert then .error .copyTmpCaCertFailed
  else if !env.copyTmpCaKey then .error .copyTmpCaKeyFailed
  else match env.imageInfo with
    | none => .error .loadImageInfoFailed
    | some image_info =>
      match image_info.rootfs_hash with
      | none => .error .rootfsHashNotFound
      | some _ =>
        if !env.writeVmConfig then .error .writeVmConfigFailed
        else if !(req.app_id.getD "").isEmpty && !env.writeInstanceInfo then
          .error .writeInstanceInfoFailed
        else .ok ()

/-- `RpcHandler::prepare_work_dir`: bail if the directory already exists, create
the shared directory (on success the work directory now exists on disk; the
returned Bool is that fact), then run the file steps.  No step deletes anything:
a failure after directory creation leaves the directory behind. -/
def prepare_work_dir (env : CreateEnv) (req : VmConfiguration) : Except CreateErr Unit × Bool :=
  if env.preExists then (.error .alreadyExists, true)
  else if !env.createSharedDir then (.error .createSharedDirFailed, false)
  else (prepare_files env req, true)

/-- All steps of `prepare_files` succeed under `env` for `req`. -/
def prepSucceeds (env : CreateEnv) (req : VmConfiguration) : Bool :=
  env.writeCompose && (req.encrypted_env.isEmpty || env.writeEncryptedEnv) &&
  env.createCertsDir && env.copyCaCert && env.copyTmpCaCert && env.copyTmpCaKey &&
  (match env.imageInfo with
   | some image_info => image_info.rootfs_hash.isSome
   | none => false) &&
  env.writeVmConfig && ((req.app_id.getD "").isEmpty || env.writeInstanceInfo)

/-- `TeepodRpc::create_vm` of `main_service.rs`, lines 131-200: validate the
label, gate disabled port mapping, admit every requested port, resolve the app
id (explicit override or derived), prepare the work directory, write the
manifest, best-effort `set_started` (failure only warns), launch via the
backend, and on launch failure delete the work directory and return the error. -/
def create_vm (cfg : Config) (request : VmConfiguration) (env : CreateEnv) (id : String) :
    Except CreateErr String × WorkDirFs :=
  let fs0 := initWorkDir env
  match validate_label request.name with
  | .error _ => (.error (.invalidName request.name), fs0)
  | .ok _ =>
    let pm_cfg := cfg.cvm.port_mapping
    if !(request.ports.isEmpty || pm_cfg.enabled) then (.error .portMappingDisabled, fs0)
    else
      match collectPorts pm_cfg request.ports with
      | .error e => (.error e, fs0)
      | .ok port_map =>
        let app_id := match request.app_id with
          | some explicit => explicit
          | none => app_id_of request.compose_file
        match prepare_work_dir env request with
        | (.error e, dirEx) => (.error e, { fs0 with dirExists := dirEx })
        | (.ok _, _) =>
          let manifest : Manifest :=
            { id := id, name := request.name, app_id := app_id, image := request.image,
              vcpu := request.vcpu, memory := request.memory, disk_size := request.disk_size,
              port_map := port_map, created_at_ms := env.now }
          if !env.putManifest then
            (.error .putManifestFailed, { dirExists := true, manifest := none, started := none })
          else
            let fs1 : WorkDirFs :=
              { dirExists := true, manifest := some manifest,
                started := if env.setStarted then some true else none }
            if !env.loadVm then
              if env.removeDirAll then
                (.error .loadVmFailed, { dirExists := false, manifest := none, started := none })
              else (.error .loadVmFailed, fs1)
            else (.ok id, fs1)

/-! ## `resize_vm` -/

/-- `ResizeVmRequest` of `teepod_rpc`: the three resource fields are optional. -/
structure ResizeVmRequest where
  id : String
  vcpu : Option Nat
  memory : Option Nat
  disk_size : Option Nat
deriving DecidableEq, Repr

/-- The backend-reported view of a VM returned by `App::get_vm`; `resize_vm`
inspects only its `status` string. -/
structure VmInfo where
  status : String
deriving DecidableEq, Repr

/-- Errors of `resize_vm`, one per `bail`/`context` site. -/
inductive ResizeErr
  | notFound (id : String)
  | notStopped (id : String)
  | manifestReadFailed
  | putManifestFailed
  | loadVmFailed
deriving DecidableEq, Repr

/-- External effects of one `resize_vm` call: the backend lookup and the
fallibility of the manifest write and the reload. -/
structure ResizeEnv where
  getVm : String → Option VmInfo
  putManifestOk : Bool
  loadVm : Bool

/-- The on-disk manifest files under `run_path`, one per instance id. -/
def ManifestStore := List (String × Manifest)
deriving DecidableEq, Repr

/-- Read `<run_path>/<id>/vm-manifest` (`VmWorkDir::manifest`). -/
def lookupManifest : ManifestStore → String → Option Manifest
  | [], _ => none
  | p :: rest, id => if p.1 = id then some p.2 else lookupManifest rest id

/-- Write the manifest file for `id` (`VmWorkDir::put_manifest`), a
whole-document replacement. -/
def writeManifest : ManifestStore → String → Manifest → ManifestStore
  | [], id, m => [(id, m)]
  | p :: rest, id, m => if p.1 = id then (p.1, m) :: rest else p :: writeManifest rest id m

/-- `TeepodRpc::resize_vm`, lines 313-346: the VM must exist and report status
`"stopped"`; then the manifest is read, the three optional fields are applied,
the manifest is written back whole, and the VM definition is reloaded. -/
def resize_vm (env : ResizeEnv) (store : ManifestStore) (request : ResizeVmRequest) :
    Except ResizeErr Unit × ManifestStore :=
  match env.getVm request.id with
  | none => (.error (.notFound request.id), store)
  | some vm =>
    if vm.status != "stopped" then (.error (.notStopped request.id), store)
    else
      match lookupManifest store request.id with
      | none => (.error .manifestReadFailed, store)
      | some manifest =>
        let manifest := { manifest with vcpu := (request.vcpu.getD manifest.vcpu) }
        let manifest := { manifest with memory := (request.memory.getD manifest.memory) }
        let manifest := { manifest with disk_size := (request.disk_size.getD manifest.disk_size) }
        if !env.putManifestOk then (.error .putManifestFailed, store)
        else
          let store := writeManifest store request.id manifest
          if !env.loadVm then (.error .loadVmFailed, store) else (.ok (), store)

/-! ## `upgrade_app` -/

/-- `UpgradeAppRequest` of `teepod_rpc`. -/
structure UpgradeAppRequest where
  id : String
  compose_file : String
  encrypted_env : List Nat
deriving DecidableEq, Repr

/-- The inline `AppCompose` schema declared inside `upgrade_app` (lines
253-261).  All fields but `docker_compose_file` are required by
deserialization; `runner` is a plain string, so an empty string deserializes. -/
structure AppCompose where
  manifest_version : Nat
  name : String
  version : String
  features : List String
  runner : String
  docker_compose_file : Option String
deriving DecidableEq, Repr

/-- On-disk files of one instance's `shared` directory that `upgrade_app`
touches: the compose file (`none` means the path does not exist) and the
encrypted-env blob. -/
structure InstanceFiles where
  compose : Option String
  encrypted_env : Option (List Nat)
deriving DecidableEq, Repr

/-- Errors of `upgrade_app`, one per `bail`/`context` site reachable in the
model (write failures are not injected here; no claim turns on them). -/
inductive UpgradeErr
  | invalidComposeFile
  | emptyDockerComposeFile
  | notFound (id : String)
deriving DecidableEq, Repr

/-- `TeepodRpc::upgrade_app`, lines 247-285.  `parse` is
`serde_json::from_str::<AppCompose>`, injected: it yields `some` exactly when
the payload deserializes against the inline schema.  With a non-empty compose
payload the code parses it, rejects a missing `docker_compose_file`, requires
the instance's compose path to exist, replaces the stored compose file and
re-derives the app id; with an empty payload the compose file is untouched and
the returned id is `Default::default()` (the empty string).  The encrypted-env
replacement is independent. -/
def upgrade_app (parse : String → Option AppCompose) (request : UpgradeAppRequest)
    (files : InstanceFiles) : Except UpgradeErr String × InstanceFiles :=
  let step : Except UpgradeErr (String × InstanceFiles) :=
    if request.compose_file != "" then
      match parse request.compose_file with
      | none => .error .invalidComposeFile
      | some app_compose =>
        if app_compose.docker_compose_file.isNone then .error .emptyDockerComposeFile
        else if files.compose.isNone then .error (.notFound request.id)
        else .ok (app_id_of request.compose_file, { files with compose := some request.compose_file })
    else .ok ("", files)
  match step with
  | .error e => (.error e, files)
  | .ok (new_id, files1) =>
    let files2 :=
      if !request.encrypted_env.isEmpty then
        { files1 with encrypted_env := some request.encrypted_env }
      else files1
    (.ok new_id, files2)

/-! ## Concrete fixtures used by counterexamples and witnesses -/

/-- One configured range: TCP ports 8000 to 9000. -/
def rangeW : List PortRange := [{ protocol := .tcp, from_ := 8000, to_ := 9000 }]

def pmEnabled : PortMappingConfig := { enabled := true, address := "127.0.0.1", range := rangeW }

def pmDisabled : PortMappingConfig := { enabled := false, address := "127.0.0.1", range := rangeW }

def cfgW : Config := { cvm := { port_mapping := pmEnabled } }

def cfgDisabled : Config := { cvm := { port_mapping := pmDisabled } }

/-- A well-formed request: valid name, no ports, an explicit app id. -/
def reqW : VmConfiguration :=
  { name := "web-1", image := "img", compose_file := "compose", vcpu := 1, memory := 1024,
    disk_size := 10, ports := [], encrypted_env := [], app_id := some "custom-app" }

def reqBadName : VmConfiguration := { reqW with name := "bad name" }

/-- Same request with one TCP mapping 8080 -> 80 (inside the configured range). -/
def reqPorts : VmConfiguration :=
  { reqW with ports := [{ protocol := "tcp", host_port := 8080, vm_port := 80 }] }

/-- Same request with one TCP mapping 9999 -> 80 (outside the configured range). -/
def reqBadPort : VmConfiguration :=
  { reqW with ports := [{ protocol := "tcp", host_port := 9999, vm_port := 80 }] }

def imageInfoW : ImageInfo := { rootfs_hash := some "roothash" }

/-- Every external call succeeds. -/
def envOk : CreateEnv :=
  { preExists := false, createSharedDir := true, writeCompose := true, writeEncryptedEnv := true,
    createCertsDir := true, copyCaCert := true, copyTmpCaCert := true, copyTmpCaKey := true,
    imageInfo := some imageInfoW, writeVmConfig := true, writeInstanceInfo := true,
    putManifest := true, setStarted := true, loadVm := true, removeDirAll := true,
    now := 1700000000000 }

/-- The CA-cert copy fails after the shared directory was created. -/
def envCertFail : CreateEnv := { envOk with copyCaCert := false }

/-- The backend launch fails; cleanup deletion succeeds. -/
def envLaunchFail : CreateEnv := { envOk with loadVm := false }

/-- Persisting the started flag fails; everything else succeeds. -/
def envNoStart : CreateEnv := { envOk with setStarted := false }

/-- The manifest `create_vm cfgW reqW envOk "vm-5"` persists. -/
def manifestW : Manifest :=
  { id := "vm-5", name := "web-1", app_id := "custom-app", image := "img", vcpu := 1,
    memory := 1024, disk_size := 10, port_map := [], created_at_ms := 1700000000000 }

def vmRunning : VmInfo := { status := "running" }

def vmStopped : VmInfo := { status := "stopped" }

def manifestR : Manifest :=
  { id := "vm-7", name := "web-1", app_id := "app7", image := "img", vcpu := 2,
    memory := 2048, disk_size := 20, port_map := [], created_at_ms := 5 }

def storeR : ManifestStore := [("vm-7", manifestR)]

def resizeReq : ResizeVmRequest :=
  { id := "vm-7", vcpu := some 4, memory := none, disk_size := some 50 }

/-- Backend reports instance `vm-7` as running. -/
def renvRunning : ResizeEnv :=
  { getVm := fun i => if i = "vm-7" then some vmRunning else none,
    putManifestOk := true, loadVm := true }

/-- Backend reports instance `vm-7` as stopped. -/
def renvStopped : ResizeEnv :=
  { getVm := fun i => if i = "vm-7" then some vmStopped else none,
    putManifestOk := true, loadVm := true }

/-- A compose payload whose `runner` is the empty string but whose
`docker_compose_file` is present: the JSON text
`{"manifest_version":1,"name":"app","version":"1.0","features":[],"runner":"","docker_compose_file":"services:"}`. -/
def composeC9 : String :=
  "\x7b\"manifest_version\":1,\"name\":\"app\",\"version\":\"1.0\",\"features\":[],\"runner\":\"\",\"docker_compose_file\":\"services:\"\x7d"

/-- What `serde_json::from_str::<AppCompose>` yields on `composeC9`: every
required field is present and `runner` deserializes to the empty string. -/
def appComposeC9 : AppCompose :=
  { manifest_version := 1, name := "app", version := "1.0", features := [],
    runner := "", docker_compose_file := some "services:" }

/-- The deserializer restricted to the strings the fixtures use: `composeC9`
parses to `appComposeC9`; every other payload fails to deserialize. -/
def parseC9 : String → Option AppCompose :=
  fun s => if s = composeC9 then some appComposeC9 else none

def filesC9 : InstanceFiles := { compose := some "old-compose", encrypted_env := none }

def upgradeReqC9 : UpgradeAppRequest :=
  { id := "vm-9", compose_file := composeC9, encrypted_env := [] }

/-- An upgrade request that supplies no compose file, only a new encrypted env. -/
def upgradeReqEmpty : UpgradeAppRequest :=
  { id := "vm-9", compose_file := "", encrypted_env := [7] }

/-! ## Supporting lemmas -/

theorem bytesBE_length (k n : Nat) : (Sha256.bytesBE k n).length = k := by
  induction k generalizing n with
  | zero => rfl
  | succ k ih => simp [Sha256.bytesBE, ih]

theorem sha256_length (msg : List Nat) : (Sha256.sha256 msg).length = 32 := by
  simp [Sha256.sha256, bytesBE_length]

theorem hexOfBytes_length (bs : List Nat) : (hexOfBytes bs).length = 2 * bs.length := by
  induction bs with
  | nil => rfl
  | cons b rest ih =>
    simp only [hexOfBytes, List.flatMap_cons, List.length_append, hexByte] at ih ⊢
    simp at ih ⊢
    omega

theorem data_mk (l : List Char) : (⟨l⟩ : String).data = l := rfl

theorem hex_sha256_length (s : String) : (hex_sha256 s).data.length = 64 := by
  simp only [hex_sha256, data_mk]
  rw [hexOfBytes_length, sha256_length]

theorem truncate40_of_64 (l : List Char) (h : l.length = 64) : truncate40 l = l.take 40 := by
  unfold truncate40
  rw [if_pos (by omega)]

theorem app_id_of_data (b : String) : (app_id_of b).data = (hex_sha256 b).data.take 40 := by
  simp only [app_id_of, data_mk]
  exact truncate40_of_64 _ (hex_sha256_length b)

/-- The standard FIPS 180-4 test vector, checking the embedded SHA-256 against
the function the `sha2` crate computes. -/
theorem hex_sha256_test_vector :
    hex_sha256 "abc" = "ba7816bf8f01cfea414140de5dae2223b00361a396177a9cb410ff61f20015ad" := by
  decide

/-! ## C3: app-id derivation -/

/-- C3: for every compose-file byte string, the derived application id is the
SHA-256 digest of those exact bytes rendered in hex and truncated to exactly 40
hex characters, and byte-identical compose files yield equal application ids
(the derivation is a deterministic pure function of the bytes). -/
theorem app_id_of_spec (b1 b2 : String) (h : b1 = b2) :
    app_id_of b1 = app_id_of b2 ∧
    app_id_of b1 = ⟨(hex_sha256 b1).data.take 40⟩ ∧
    (app_id_of b1).data.length = 40 ∧
    hex_sha256 b1 = ⟨hexOfBytes (Sha256.sha256 (strBytes b1))⟩ := by
  subst h
  refine ⟨rfl, ?_, ?_, rfl⟩
  · simp only [app_id_of]
    exact congrArg String.mk (truncate40_of_64 _ (hex_sha256_length b1))
  · rw [app_id_of_data, List.length_take, hex_sha256_length]
    omega

/-- C3 witness: the theorem at the empty compose file. -/
theorem app_id_of_spec_witness :
    app_id_of "" = app_id_of "" ∧
    app_id_of "" = ⟨(hex_sha256 "").data.take 40⟩ ∧
    (app_id_of "").data.length = 40 ∧
    hex_sha256 "" = ⟨hexOfBytes (Sha256.sha256 (strBytes ""))⟩ :=
  app_id_of_spec "" "" rfl

/-! ## C6: name validation -/

/-- C6 counterexample: the claim says the empty name is rejected, but
`validate_label` scans characters and the empty string has none, so the empty
name passes validation and `create_vm` proceeds to create the instance. -/
theorem validate_label_accepts_empty :
    validate_label "" = .ok () ∧
    (create_vm cfgW { reqW with name := "" } envOk "vm-6c").1 = .ok "vm-6c" := by
  constructor
  · rfl
  · decide

/-- C6 amended: name validation rejects (with an error, before any mutation)
exactly the names containing a character that is not alphanumeric, a dash or an
underscore; the empty name is accepted. -/
theorem validate_label_spec :
    (∀ label : String,
       validate_label label = .ok () ↔
         ∀ c ∈ label.data, c.isAlphanum = true ∨ c = '-' ∨ c = '_') ∧
    (∀ (cfg : Config) (req : VmConfiguration) (env : CreateEnv) (id : String),
       validate_label req.name ≠ .ok () →
       create_vm cfg req env id = (.error (.invalidName req.name), initWorkDir env)) := by
  constructor
  · intro label
    unfold validate_label
    split
    · next h =>
      simp only [List.any_eq_true] at h
      obtain ⟨c, hc, hbad⟩ := h
      constructor
      · intro habs
        exact absurd habs (by simp)
      · intro hall
        rcases hall c hc with h1 | h1 | h1 <;> simp [h1] at hbad
    · next h =>
      refine ⟨fun _ c hc => ?_, fun _ => rfl⟩
      by_cases h1 : c.isAlphanum = true
      · exact Or.inl h1
      by_cases h2 : c = '-'
      · exact Or.inr (Or.inl h2)
      by_cases h3 : c = '_'
      · exact Or.inr (Or.inr h3)
      exfalso
      apply h
      refine List.any_eq_true.mpr ⟨c, hc, ?_⟩
      simp [h1, h2, h3]
  · intro cfg req env id hne
    cases hv : validate_label req.name with
    | error e => simp [create_vm, hv]
    | ok u => exact absurd (by rw [hv]) hne

/-- C6 witness: a name containing a space is rejected before any mutation. -/
theorem validate_label_spec_witness :
    create_vm cfgW reqBadName envOk "vm-6" = (.error (.invalidName "bad name"), initWorkDir envOk) :=
  validate_label_spec.2 cfgW reqBadName envOk "vm-6" (by decide)

/-! ## C7: resize requires the stopped state -/

/-- C7: a resize_vm request against an existing instance whose backend-reported
status is not "stopped" fails with the state-conflict error and leaves the
on-disk manifest store untouched. -/
theorem resize_vm_requires_stopped (env : ResizeEnv) (store : ManifestStore)
    (req : ResizeVmRequest) (vm : VmInfo)
    (hget : env.getVm req.id = some vm) (hst : vm.status ≠ "stopped") :
    resize_vm env store req = (.error (.notStopped req.id), store) := by
  unfold resize_vm
  rw [hget]
  simp [hst]

/-- C7 witness: resizing the running instance `vm-7` is refused and the store
is returned unchanged. -/
theorem resize_vm_requires_stopped_witness :
    resize_vm renvRunning storeR resizeReq = (.error (.notStopped "vm-7"), storeR) :=
  resize_vm_requires_stopped renvRunning storeR resizeReq vmRunning (by decide) (by decide)

/-! ## C8: resize updates exactly the supplied resource fields -/

theorem lookup_writeManifest_self (store : ManifestStore) (id : String) (m0 m : Manifest)
    (h : lookupManifest store id = some m0) :
    lookupManifest (writeManifest store id m) id = some m := by
  induction store with
  | nil => simp [lookupManifest] at h
  | cons p rest ih =>
    by_cases hp : p.1 = id
    · simp [writeManifest, lookupManifest, hp]
    · simp only [lookupManifest, if_neg hp] at h
      simp [writeManifest, lookupManifest, hp, ih h]

/-- C8: a successful resize on a stopped instance rewrites the manifest with
vcpu, memory and disk_size taken from the request where supplied and kept
otherwise, and every other manifest field unchanged (the record update touches
only those three fields). -/
theorem resize_vm_updates_only_resources (env : ResizeEnv) (store : ManifestStore)
    (req : ResizeVmRequest) (vm : VmInfo) (m : Manifest)
    (hget : env.getVm req.id = some vm) (hst : vm.status = "stopped")
    (hm : lookupManifest store req.id = some m)
    (hput : env.putManifestOk = true) (hload : env.loadVm = true) :
    (resize_vm env store req).1 = .ok () ∧
    lookupManifest (resize_vm env store req).2 req.id = some
      { m with vcpu := req.vcpu.getD m.vcpu, memory := req.memory.getD m.memory,
               disk_size := req.disk_size.getD m.disk_size } := by
  have hrw : resize_vm env store req =
      (.ok (), writeManifest store req.id
        { m with vcpu := req.vcpu.getD m.vcpu, memory := req.memory.getD m.memory,
                 disk_size := req.disk_size.getD m.disk_size }) := by
    unfold resize_vm
    rw [hget]
    simp [hst, hm, hput, hload]
  rw [hrw]
  exact ⟨rfl, lookup_writeManifest_self store req.id m _ hm⟩

/-- C8 witness: resizing stopped `vm-7` to 4 vcpus and 50 disk keeps memory and
all identity fields. -/
theorem resize_vm_updates_only_resources_witness :
    (resize_vm renvStopped storeR resizeReq).1 = .ok () ∧
    lookupManifest (resize_vm renvStopped storeR resizeReq).2 "vm-7" = some
      { manifestR with vcpu := 4, memory := manifestR.memory, disk_size := 50 } :=
  resize_vm_updates_only_resources renvStopped storeR resizeReq vmStopped manifestR
    (by decide) (by decide) (by decide) (by decide) (by decide)

/-! ## C2: disabled port mapping -/

/-- C2: while port mapping is disabled, create_vm fails before any directory or
file is created whenever the ports list is non-empty (with the dedicated error
when the name is valid), and with an empty ports list the disabled flag has no
effect at all on the outcome. -/
theorem create_vm_port_mapping_disabled_spec :
    ∀ (cfg : Config) (req : VmConfiguration) (env : CreateEnv) (id : String),
      cfg.cvm.port_mapping.enabled = false →
      ((req.ports ≠ [] →
          (create_vm cfg req env id).2 = initWorkDir env ∧
          ∃ e, (create_vm cfg req env id).1 = .error e) ∧
       (req.ports ≠ [] → validate_label req.name = .ok () →
          (create_vm cfg req env id).1 = .error .portMappingDisabled) ∧
       (req.ports = [] →
          create_vm cfg req env id =
            create_vm { cvm := { port_mapping := { cfg.cvm.port_mapping with enabled := true } } }
              req env id)) := by
  intro cfg req env id hdis
  refine ⟨?_, ?_, ?_⟩
  · intro hne
    cases hv : validate_label req.name with
    | error e =>
      exact ⟨by simp [create_vm, hv], ⟨.invalidName req.name, by simp [create_vm, hv]⟩⟩
    | ok u =>
      have hpe : req.ports.isEmpty = false := by simp [List.isEmpty_iff, hne]
      exact ⟨by simp [create_vm, hv, hpe, hdis],
             ⟨.portMappingDisabled, by simp [create_vm, hv, hpe, hdis]⟩⟩
  · intro hne hv
    have hpe : req.ports.isEmpty = false := by simp [List.isEmpty_iff, hne]
    simp [create_vm, hv, hpe, hdis]
  · intro hE
    cases hv : validate_label req.name with
    | error e => simp [create_vm, hv]
    | ok u => simp [create_vm, hv, hE, collectPorts]

/-- C2 witness: a request with one mapping fails with the dedicated error under
the disabled configuration. -/
theorem create_vm_port_mapping_disabled_witness :
    (create_vm cfgDisabled reqPorts envOk "vm-2").1 = .error .portMappingDisabled :=
  (create_vm_port_mapping_disabled_spec cfgDisabled reqPorts envOk "vm-2" (by decide)).2.1
    (by decide) (by decide)

/-! ## C4: port admissibility -/

theorem mapPort_not_allowed (pm : PortMappingConfig) (p : RpcPortMapping)
    (h1 : p.host_port < 65536) (h2 : p.vm_port < 65536)
    (h3 : pm.is_allowed p.protocol p.host_port = false) :
    mapPort pm p = .error (.portNotAllowed p.protocol p.host_port) := by
  unfold mapPort
  simp [tryIntoU16, h1, h2, h3]

theorem collectPorts_error_of_mem (pm : PortMappingConfig) (l : List RpcPortMapping)
    (p : RpcPortMapping) (hp : p ∈ l) (e : CreateErr) (he : mapPort pm p = .error e) :
    ∃ e2, collectPorts pm l = .error e2 := by
  induction l with
  | nil => cases hp
  | cons q rest ih =>
    cases hp with
    | head => exact ⟨e, by simp [collectPorts, he]⟩
    | tail _ hmem =>
      cases hq : mapPort pm q with
      | error e3 => exact ⟨e3, by simp [collectPorts, hq]⟩
      | ok y =>
        obtain ⟨e2, h2⟩ := ih hmem
        exact ⟨e2, by simp [collectPorts, hq, h2]⟩

theorem collectPorts_first_error (pm : PortMappingConfig) (pre post : List RpcPortMapping)
    (p : RpcPortMapping) (e : CreateErr)
    (hpre : ∀ q ∈ pre, ∃ y, mapPort pm q = .ok y)
    (he : mapPort pm p = .error e) :
    collectPorts pm (pre ++ p :: post) = .error e := by
  induction pre with
  | nil => simp [collectPorts, he]
  | cons q rest ih =>
    obtain ⟨y, hy⟩ := hpre q (by simp)
    have hrest := ih fun r hr => hpre r (by simp [hr])
    simp [collectPorts, hy, hrest]

/-- C4 counterexample: with port mapping disabled, the requested TCP mapping
8080 -> 80 is inadmissible, and create_vm does fail — but with the blanket
"Port mapping is disabled" error, not with an error naming that mapping. -/
theorem port_mapping_error_not_naming :
    pmDisabled.is_allowed "tcp" 8080 = false ∧
    (create_vm cfgDisabled reqPorts envOk "vm-4c").1 = .error .portMappingDisabled ∧
    (create_vm cfgDisabled reqPorts envOk "vm-4c").1 ≠ .error (.portNotAllowed "tcp" 8080) := by
  decide

/-- C4 amended: a requested mapping is admissible exactly when port mapping is
enabled and some configured range entry matches the protocol and brackets the
port; a create_vm request containing an inadmissible mapping (with ports that
fit in u16) always fails; and when the feature is enabled and the first failing
mapping of the list is an inadmissible one, the error names that mapping's
protocol and host port.  (When the feature is disabled the failure is the
blanket disabled error of C2 instead.) -/
theorem port_admissibility_spec :
    (∀ (c : PortMappingConfig) (protocol : String) (port : Nat),
       c.is_allowed protocol port = true ↔
         (c.enabled = true ∧ ∃ r ∈ c.range,
            r.protocol.as_str = protocol ∧ r.from_ ≤ port ∧ port ≤ r.to_)) ∧
    (∀ (cfg : Config) (req : VmConfiguration) (env : CreateEnv) (id : String)
       (p : RpcPortMapping), p ∈ req.ports →
       p.host_port < 65536 → p.vm_port < 65536 →
       cfg.cvm.port_mapping.is_allowed p.protocol p.host_port = false →
       ∃ e, (create_vm cfg req env id).1 = .error e) ∧
    (∀ (cfg : Config) (req : VmConfiguration) (env : CreateEnv) (id : String)
       (pre post : List RpcPortMapping) (p : RpcPortMapping),
       validate_label req.name = .ok () →
       cfg.cvm.port_mapping.enabled = true →
       req.ports = pre ++ p :: post →
       (∀ q ∈ pre, ∃ y, mapPort cfg.cvm.port_mapping q = .ok y) →
       p.host_port < 65536 → p.vm_port < 65536 →
       cfg.cvm.port_mapping.is_allowed p.protocol p.host_port = false →
       create_vm cfg req env id =
         (.error (.portNotAllowed p.protocol p.host_port), initWorkDir env)) := by
  refine ⟨?_, ?_, ?_⟩
  · intro c protocol port
    unfold PortMappingConfig.is_allowed
    cases he : c.enabled with
    | false => simp [he]
    | true =>
      simp only [Bool.not_true, Bool.false_eq_true, if_false, List.any_eq_true,
        PortRange.contains, Bool.and_eq_true, beq_iff_eq, decide_eq_true_eq]
      constructor
      · rintro ⟨r, hr, ⟨hps, h1⟩, h2⟩
        exact ⟨by trivial, r, hr, hps, h1, h2⟩
      · rintro ⟨-, r, hr, hps, h1, h2⟩
        exact ⟨r, hr, ⟨hps, h1⟩, h2⟩
  · intro cfg req env id p hp h1 h2 h3
    cases hv : validate_label req.name with
    | error e => exact ⟨.invalidName req.name, by simp [create_vm, hv]⟩
    | ok u =>
      have hne : req.ports ≠ [] := by
        intro h0
        rw [h0] at hp
        cases hp
      have hpe : req.ports.isEmpty = false := by simp [List.isEmpty_iff, hne]
      by_cases hen : cfg.cvm.port_mapping.enabled
      · have herr := mapPort_not_allowed _ p h1 h2 h3
        obtain ⟨e2, hm⟩ := collectPorts_error_of_mem _ _ p hp _ herr
        exact ⟨e2, by simp [create_vm, hv, hpe, hen, hm]⟩
      · exact ⟨.portMappingDisabled, by simp [create_vm, hv, hpe, hen]⟩
  · intro cfg req env id pre post p hv hen hps hpre h1 h2 h3
    have herr := mapPort_not_allowed _ p h1 h2 h3
    have hm := collectPorts_first_error _ pre post p _ hpre herr
    have hpe : req.ports.isEmpty = false := by simp [hps]
    simp [create_vm, hv, hpe, hen, hps, hm]

/-- C4 witness: with the feature enabled, TCP 9999 falls outside the configured
range 8000-9000 and create_vm fails naming the mapping. -/
theorem port_admissibility_spec_witness :
    create_vm cfgW reqBadPort envOk "vm-4" =
      (.error (.portNotAllowed "tcp" 9999), initWorkDir envOk) :=
  port_admissibility_spec.2.2 cfgW reqBadPort envOk "vm-4" [] []
    { protocol := "tcp", host_port := 9999, vm_port := 80 }
    (by decide) (by decide) (by decide) (by simp) (by decide) (by decide) (by decide)

/-! ## C5: the recorded application id -/

/-- C5: whenever create_vm persists a manifest, its application id is the
caller-supplied one when present (whatever its content) and the value derived
from the compose-file bytes otherwise. -/
theorem manifest_records_app_id :
    ∀ (cfg : Config) (req : VmConfiguration) (env : CreateEnv) (id : String) (m : Manifest),
      (create_vm cfg req env id).2.manifest = some m →
      m.app_id = (match req.app_id with
                  | some explicit => explicit
                  | none => app_id_of req.compose_file) := by
  intro cfg req env id m h
  simp only [create_vm] at h
  split at h
  · simp [initWorkDir] at h
  · split at h
    · simp [initWorkDir] at h
    · split at h
      · simp [initWorkDir] at h
      · split at h
        · simp [initWorkDir] at h
        · split at h
          · simp at h
          · split at h
            · split at h
              · simp at h
              · simp only [Option.some.injEq] at h
                rw [← h]
            · simp only [Option.some.injEq] at h
              rw [← h]

/-- C5 witness: with an explicit app id the persisted manifest records it. -/
theorem manifest_records_app_id_witness :
    manifestW.app_id = (match reqW.app_id with
                        | some explicit => explicit
                        | none => app_id_of reqW.compose_file) :=
  manifest_records_app_id cfgW reqW envOk "vm-5" manifestW (by decide)

/-! ## C1: rollback behaviour of create_vm -/

theorem prepare_files_ok (env : CreateEnv) (req : VmConfiguration)
    (h : prepSucceeds env req = true) : prepare_files env req = .ok () := by
  unfold prepSucceeds at h
  simp only [Bool.and_eq_true] at h
  obtain ⟨⟨⟨⟨⟨⟨⟨⟨h1, h2⟩, h3⟩, h4⟩, h5⟩, h6⟩, h7⟩, h8⟩, h9⟩ := h
  have e1 : (!req.encrypted_env.isEmpty && !env.writeEncryptedEnv) = false := by
    cases hb : req.encrypted_env.isEmpty <;> simp_all
  have e9 : (!(req.app_id.getD "").isEmpty && !env.writeInstanceInfo) = false := by
    cases hb : (req.app_id.getD "").isEmpty <;> simp_all
  unfold prepare_files
  cases him : env.imageInfo with
  | none => rw [him] at h7; simp at h7
  | some image_info =>
    rw [him] at h7
    simp at h7
    cases hr : image_info.rootfs_hash with
    | none => rw [hr] at h7; simp at h7
    | some rh => simp [h1, e1, h3, h4, h5, h6, h8, e9, hr]

/-- C1 counterexample: the CA-cert copy fails after the shared directory was
created; create_vm returns the error but the work directory still exists — the
partially created instance stays discoverable, refuting the claim that any
failure from directory preparation onward removes the work directory. -/
theorem create_vm_no_rollback_on_prepare_failure :
    (create_vm cfgW reqW envCertFail "vm-1c").1 = .error .copyCaCertFailed ∧
    (create_vm cfgW reqW envCertFail "vm-1c").2.dirExists = true := by
  decide

/-- C1 amended: once validation passes and the work directory is created, only
a backend-launch failure triggers rollback — the launch error is returned and
(the deletion succeeding) the work directory no longer exists; a failure in an
earlier step, exhibited here at the CA-cert copy, propagates the original error
but leaves the partially created work directory on disk. -/
theorem create_vm_rollback_spec :
    ∀ (cfg : Config) (req : VmConfiguration) (env : CreateEnv) (id : String),
      validate_label req.name = .ok () →
      (req.ports.isEmpty || cfg.cvm.port_mapping.enabled) = true →
      (∃ pmap, collectPorts cfg.cvm.port_mapping req.ports = .ok pmap) →
      env.preExists = false →
      env.createSharedDir = true →
      ((prepSucceeds env req = true → env.putManifest = true → env.loadVm = false →
          env.removeDirAll = true →
          (create_vm cfg req env id).1 = .error .loadVmFailed ∧
          (create_vm cfg req env id).2.dirExists = false) ∧
       (env.writeCompose = true →
          (req.encrypted_env.isEmpty || env.writeEncryptedEnv) = true →
          env.createCertsDir = true → env.copyCaCert = false →
          (create_vm cfg req env id).1 = .error .copyCaCertFailed ∧
          (create_vm cfg req env id).2.dirExists = true)) := by
  intro cfg req env id hv hgate hex hpre hcsd
  obtain ⟨pmap, hm⟩ := hex
  constructor
  · intro hprep hput hload hrem
    have hpf := prepare_files_ok env req hprep
    have hpwd : prepare_work_dir env req = (.ok (), true) := by
      unfold prepare_work_dir
      simp [hpre, hcsd, hpf]
    refine ⟨?_, ?_⟩ <;> simp [create_vm, hv, hgate, hm, hpwd, hput, hload, hrem]
  · intro hwc henv hcd hca
    have hpf : prepare_files env req = .error .copyCaCertFailed := by
      have e1 : (!req.encrypted_env.isEmpty && !env.writeEncryptedEnv) = false := by
        cases hb : req.encrypted_env.isEmpty <;> simp_all
      unfold prepare_files
      simp [hwc, e1, hcd, hca]
    have hpwd : prepare_work_dir env req = (.error .copyCaCertFailed, true) := by
      unfold prepare_work_dir
      simp [hpre, hcsd, hpf]
    refine ⟨?_, ?_⟩ <;> simp [create_vm, hv, hgate, hm, hpwd, initWorkDir]

/-- C1 witness: the backend launch fails on a fully prepared instance; the
launch error is returned and the work directory is gone. -/
theorem create_vm_rollback_spec_witness :
    (create_vm cfgW reqW envLaunchFail "vm-1").1 = .error .loadVmFailed ∧
    (create_vm cfgW reqW envLaunchFail "vm-1").2.dirExists = false :=
  (create_vm_rollback_spec cfgW reqW envLaunchFail "vm-1" (by decide) (by decide)
    ⟨[], by decide⟩ (by decide) (by decide)).1 (by decide) (by decide) (by decide) (by decide)

/-! ## C10: a failed started-flag write does not abort creation -/

/-- C10: when preparation, manifest persistence and the backend launch all
succeed, create_vm returns the new instance id even though persisting the
started flag failed; the work directory stays and no started flag is recorded. -/
theorem create_vm_started_warn_only :
    ∀ (cfg : Config) (req : VmConfiguration) (env : CreateEnv) (id : String),
      validate_label req.name = .ok () →
      (req.ports.isEmpty || cfg.cvm.port_mapping.enabled) = true →
      (∃ pmap, collectPorts cfg.cvm.port_mapping req.ports = .ok pmap) →
      env.preExists = false → env.createSharedDir = true →
      prepSucceeds env req = true → env.putManifest = true →
      env.loadVm = true → env.setStarted = false →
      (create_vm cfg req env id).1 = .ok id ∧
      (create_vm cfg req env id).2.dirExists = true ∧
      (create_vm cfg req env id).2.started = none := by
  intro cfg req env id hv hgate hex hpre hcsd hprep hput hload hstart
  obtain ⟨pmap, hm⟩ := hex
  have hpf := prepare_files_ok env req hprep
  have hpwd : prepare_work_dir env req = (.ok (), true) := by
    unfold prepare_work_dir
    simp [hpre, hcsd, hpf]
  refine ⟨?_, ?_, ?_⟩ <;> simp [create_vm, hv, hgate, hm, hpwd, hput, hload, hstart]

/-- C10 witness: all steps succeed except the started-flag write. -/
theorem create_vm_started_warn_only_witness :
    (create_vm cfgW reqW envNoStart "vm-10").1 = .ok "vm-10" ∧
    (create_vm cfgW reqW envNoStart "vm-10").2.dirExists = true ∧
    (create_vm cfgW reqW envNoStart "vm-10").2.started = none :=
  create_vm_started_warn_only cfgW reqW envNoStart "vm-10" (by decide) (by decide)
    ⟨[], by decide⟩ (by decide) (by decide) (by decide) (by decide) (by decide) (by decide)

/-! ## C9: upgrade_app validation and writes -/

/-- C9 counterexample: a compose payload whose runner definition is the empty
string (but which carries a docker_compose_file) is not rejected — upgrade_app
accepts it and replaces the stored compose file, refuting the claim that an
empty runner definition is rejected with no file modified. -/
theorem upgrade_app_empty_runner_accepted :
    parseC9 composeC9 = some appComposeC9 ∧
    appComposeC9.runner = "" ∧
    (upgrade_app parseC9 upgradeReqC9 filesC9).2.compose = some composeC9 ∧
    (upgrade_app parseC9 upgradeReqC9 filesC9).1 = .ok (app_id_of composeC9) := by
  have hne : ¬ composeC9 = "" := by decide
  refine ⟨by simp [parseC9], rfl, ?_, ?_⟩ <;>
    simp [upgrade_app, upgradeReqC9, parseC9, appComposeC9, filesC9, hne]

/-- C9 amended: with a non-empty compose payload, a payload that fails to
deserialize against the inline schema (for example one missing its runner
field) or whose docker_compose_file is absent is rejected with a validation
error and no file is modified; a present-but-empty runner string is not
rejected.  On acceptance the stored compose file is replaced and the returned
app id is re-derived from the new bytes; with no compose payload the stored
compose file is unchanged. -/
theorem upgrade_app_spec :
    ∀ (parse : String → Option AppCompose) (req : UpgradeAppRequest) (files : InstanceFiles),
      (req.compose_file ≠ "" →
         (parse req.compose_file = none →
            upgrade_app parse req files = (.error .invalidComposeFile, files)) ∧
         (∀ ac, parse req.compose_file = some ac → ac.docker_compose_file = none →
            upgrade_app parse req files = (.error .emptyDockerComposeFile, files)) ∧
         (∀ ac, parse req.compose_file = some ac → ac.docker_compose_file ≠ none →
            files.compose = none →
            upgrade_app parse req files = (.error (.notFound req.id), files)) ∧
         (∀ ac, parse req.compose_file = some ac → ac.docker_compose_file ≠ none →
            files.compose ≠ none →
            (upgrade_app parse req files).1 = .ok (app_id_of req.compose_file) ∧
            (upgrade_app parse req files).2.compose = some req.compose_file)) ∧
      (req.compose_file = "" →
         (upgrade_app parse req files).1 = .ok "" ∧
         (upgrade_app parse req files).2.compose = files.compose) := by
  intro parse req files
  constructor
  · intro hne
    have hbne : (req.compose_file != "") = true := by simp [bne_iff_ne, hne]
    refine ⟨?_, ?_, ?_, ?_⟩
    · intro hp
      simp [upgrade_app, hbne, hp]
    · intro ac hp hd
      simp [upgrade_app, hbne, hp, hd]
    · intro ac hp hd hc
      obtain ⟨d, hdc⟩ := Option.ne_none_iff_exists'.mp hd
      simp [upgrade_app, hbne, hp, hdc, hc]
    · intro ac hp hd hc
      obtain ⟨d, hdc⟩ := Option.ne_none_iff_exists'.mp hd
      obtain ⟨cf, hcf⟩ := Option.ne_none_iff_exists'.mp hc
      cases henv : req.encrypted_env.isEmpty <;>
        simp [upgrade_app, hbne, hp, hdc, hcf, henv]
  · intro he
    cases henv : req.encrypted_env.isEmpty <;>
      simp [upgrade_app, he, henv]

/-- C9 witness: an upgrade request with no compose payload leaves the stored
compose file untouched and returns the empty id. -/
theorem upgrade_app_spec_witness :
    (upgrade_app parseC9 upgradeReqEmpty filesC9).1 = .ok "" ∧
    (upgrade_app parseC9 upgradeReqEmpty filesC9).2.compose = filesC9.compose :=
  (upgrade_app_spec parseC9 upgradeReqEmpty filesC9).2 rfl

end Dstack

